import Mathlib

/-!
Verification development for the MeinWort Pro recording/mode-orchestration
engine (a Tauri/React voice transcription overlay).  The definitions below
are a shallow embedding of the TypeScript sources:

  * `src/hooks/useAppState.ts`   — recording orchestrator, mode detector,
    self-echo guard (`handleTextProcessingMode`, `autoDetectSelectionAndSetMode`,
    `startRecording`, `stopRecording`, `toggleRecording`);
  * `src/services/chatService.ts` — command normalizer, fast-track
    dispatcher, result cache, rewrite pipeline;
  * `src/services/transcriptionService.ts` — pre-flight validation,
    silence detection, retry engine.

JavaScript `string` values are modelled as `String`, numbers used as
millisecond timestamps as `Int` (`Date.now()` arithmetic), audio sample
amplitudes as `ℚ` (the JS code computes with IEEE doubles; the claims under
study only concern threshold logic at values where exact rational
arithmetic agrees).  Nullable fields are `Option`; JS truthiness of a
string is `≠ ""`, of a number `≠ 0`, and is modelled explicitly at each
use site.  Asynchronous code is modelled as a small-step transition
system whose atomic steps are the synchronous segments between `await`
suspension points (React 18 batches the `setState` calls inside one such
segment into a single committed update, so committed states are exactly
the states at segment boundaries).
-/

/-- `true` iff `pat` occurs as a contiguous substring of `s`
(JS `String.prototype.includes`). -/
def strContains (s pat : String) : Bool :=
  s.toList.tails.any (fun t => pat.toList.isPrefixOf t)

/-- Strip leading and trailing whitespace (JS `trim()`), computed on the
character list so that it reduces by evaluation. -/
def jsTrim (s : String) : String :=
  String.mk
    (((s.toList.dropWhile Char.isWhitespace).reverse.dropWhile Char.isWhitespace).reverse)

/-- Lower-case every character (JS `toLowerCase()`; ASCII case folding —
the German command tables are already lower-case where it matters). -/
def jsToLower (s : String) : String :=
  String.mk (s.toList.map Char.toLower)

/-- The first `n` characters of `s` (JS `substring(0, n)`). -/
def strTake (s : String) (n : Nat) : String :=
  String.mk (s.toList.take n)

/-- Split a character list at every separator character, keeping empty
pieces (the behaviour of JS `split` with a single-character class). -/
def splitListBy (p : Char → Bool) : List Char → List (List Char)
  | [] => [[]]
  | c :: rest =>
      let r := splitListBy p rest
      if p c then [] :: r
      else
        match r with
        | [] => [[c]]
        | h :: t => (c :: h) :: t

/-- JS `trimmedText.split(/\s+/)` on an already-trimmed string: splitting the
empty string yields `[""]` (length 1), otherwise runs of whitespace separate
the words. -/
def jsSplitWs (s : String) : List String :=
  if s = "" then [""]
  else ((splitListBy Char.isWhitespace s.toList).map String.mk).filter (fun w => w ≠ "")

/-- `text.replace(/\s/g, '')` — drop every whitespace character. -/
def stripWs (s : String) : String :=
  String.mk (s.toList.filter (fun c => !c.isWhitespace))

deriving instance DecidableEq for Except

section AppStateModel

/-- `AppMode` from `src/types` : `'normal' | 'text-processing'`. -/
inductive AppMode
  | normal
  | textProcessing
  deriving DecidableEq, Repr

/-- The `AppState` record of `useAppState` (`useAppState.ts` lines 9-20).
`lastProcessedTimestamp` is a `Date.now()` value (ms). -/
structure AppState where
  isRecording : Bool
  isTranscribing : Bool
  lastTranscription : Option String
  error : Option String
  mode : AppMode
  clipboardText : Option String
  isProcessingText : Bool
  lastProcessedResult : Option String
  lastProcessedTimestamp : Option Int
  isDetecting : Bool
  deriving DecidableEq, Repr

/-- The initial state (`useAppState.ts` lines 9-20). -/
def initialAppState : AppState :=
  { isRecording := false
    isTranscribing := false
    lastTranscription := none
    error := none
    mode := .normal
    clipboardText := none
    isProcessingText := false
    lastProcessedResult := none
    lastProcessedTimestamp := none
    isDetecting := false }

/-- `setRecording` (`useAppState.ts` lines 25-31): clears the error when a
new recording starts. -/
def setRecording (b : Bool) (st : AppState) : AppState :=
  { st with isRecording := b, error := if b then none else st.error }

/-- `setTranscribing` (`useAppState.ts` lines 33-38). -/
def setTranscribing (b : Bool) (st : AppState) : AppState :=
  { st with isTranscribing := b }

/-- `setTranscription` (`useAppState.ts` lines 40-46): also ends the
transcribing phase. -/
def setTranscription (t : Option String) (st : AppState) : AppState :=
  { st with lastTranscription := t, isTranscribing := false }

/-- `setError` (`useAppState.ts` lines 48-55): also force-clears the
recording and transcribing flags. -/
def setError (e : Option String) (st : AppState) : AppState :=
  { st with error := e, isRecording := false, isTranscribing := false }

end AppStateModel

section ModeDetector

/-- The screenshot-artifact filter of `handleTextProcessingMode`
(`useAppState.ts` line 150): a transient macOS screenshot path token. -/
def isScreenshotArtifact (text : String) : Bool :=
  strContains text "/var/folders/" && strContains text "screencaptureui"

/-- The self-echo guard condition (`useAppState.ts` lines 156-158): the JS
test `state.lastProcessedResult && state.lastProcessedTimestamp &&
text === state.lastProcessedResult` followed by
`Date.now() - state.lastProcessedTimestamp < 60000`.  String truthiness
(`≠ ""`) and number truthiness (`≠ 0`) are made explicit. -/
def isOwnEcho (st : AppState) (text : String) (now : Int) : Bool :=
  match st.lastProcessedResult, st.lastProcessedTimestamp with
  | some r, some ts => r ≠ "" && ts ≠ 0 && text == r && now - ts < 60000
  | _, _ => false

/-- `handleNormalMode` (`useAppState.ts` lines 202-212). -/
def handleNormalMode (st : AppState) : AppMode × AppState :=
  (.normal, { st with mode := .normal, clipboardText := none, error := none })

/-- `handleTextProcessingMode` (`useAppState.ts` lines 148-199): given the
fresh clipboard text and the current wall-clock `now`, either filter a
screenshot artifact, suppress the system's own recent output (one-shot:
the guard record is cleared), or enter text-processing mode with the text
as the selection snapshot. -/
def handleTextProcessingMode (text : String) (now : Int) (st : AppState) :
    AppMode × AppState :=
  if isScreenshotArtifact text then
    handleNormalMode st
  else
    let activate : AppMode × AppState :=
      (.textProcessing,
       { st with mode := .textProcessing, clipboardText := some text, error := none })
    match st.lastProcessedResult, st.lastProcessedTimestamp with
    | some r, some ts =>
        if r ≠ "" && ts ≠ 0 && text == r then
          if now - ts < 60000 then
            (.normal,
             { st with mode := .normal, clipboardText := none, error := none,
                       lastProcessedResult := none, lastProcessedTimestamp := none })
          else activate
        else activate
    | _, _ => activate

/-- Body of `autoDetectSelectionAndSetMode` (`useAppState.ts` lines 74-127).
`beforeRaw`/`afterRaw` are the clipboard contents returned by the two
`readText` calls (`readText` fails on blank content, in which case the code
substitutes `''`; this is the same as trimming), `copyOk` the outcome of
`autoCopySelection`.  The `finally` always clears the detection flag. -/
def autoDetectBody (copyOk : Bool) (beforeRaw afterRaw : String) (now : Int)
    (st : AppState) : AppMode × AppState :=
  if st.isDetecting then
    (st.mode, st)
  else
    let st := { st with isDetecting := true }
    let textBefore := jsTrim beforeRaw
    let clearFlag : AppMode × AppState → AppMode × AppState :=
      fun (m, s) => (m, { s with isDetecting := false })
    if copyOk then
      let textAfter := jsTrim afterRaw
      if textAfter ≠ "" && textAfter ≠ textBefore then
        clearFlag (handleTextProcessingMode textAfter now st)
      else
        clearFlag (handleNormalMode st)
    else
      clearFlag (handleNormalMode st)

end ModeDetector

section ChatServiceModel

/-- `ChatResult` (`chatService.ts` lines 8-12). -/
structure ChatResult where
  processedText : String
  originalCommand : String
  tokensUsed : Option Nat
  deriving DecidableEq, Repr

/-- Helper for `replace(/\s+/g, ' ')`: each maximal run of whitespace
becomes a single space.  `prevWs` records whether the previous character
was part of a whitespace run. -/
def collapseWsAux : Bool → List Char → List Char
  | _, [] => []
  | prevWs, c :: rest =>
      if c.isWhitespace then
        (if prevWs then [] else [' ']) ++ collapseWsAux true rest
      else c :: collapseWsAux false rest

/-- JS `s.replace(/\s+/g, ' ')`. -/
def jsCollapseWs (s : String) : String :=
  String.mk (collapseWsAux false s.toList)

/-- Helper for `replace(/c{2,}/g, rep)`: `run` counts the pending
occurrences of `ch`; a run of length ≥ 2 is replaced by `rep`, a single
occurrence is kept. -/
def squashRunsAux (ch : Char) (rep : List Char) : Nat → List Char → List Char
  | run, [] => if run = 0 then [] else if run = 1 then [ch] else rep
  | run, c :: rest =>
      if c = ch then squashRunsAux ch rep (run + 1) rest
      else
        (if run = 0 then [] else if run = 1 then [ch] else rep) ++
          c :: squashRunsAux ch rep 0 rest

/-- JS `s.replace(/c{2,}/g, rep)` for a single character class `c`. -/
def jsSquashRuns (ch : Char) (rep : String) (s : String) : String :=
  String.mk (squashRunsAux ch rep.toList 0 s.toList)

/-- JS `s.charAt(0).toUpperCase() + s.slice(1)` (empty string unchanged). -/
def capitalizeFirst (s : String) : String :=
  match s.toList with
  | [] => ""
  | c :: rest => String.mk (c.toUpper :: rest)

/-- `ChatService.normalizeCommand` (`chatService.ts` lines 272-330): a
lookup table canonicalizing common spoken phrasings; unmatched commands
pass through verbatim. -/
def normalizeCommand (rawCommand : String) : String :=
  let normalized := jsTrim (jsToLower rawCommand)
  let commandMappings : List (String × String) :=
    [("fass zusammen", "zusammenfassen"),
     ("fasse zusammen", "zusammenfassen"),
     ("fass mir das zusammen", "zusammenfassen"),
     ("zusammenfassung", "zusammenfassen"),
     ("summary", "zusammenfassen"),
     ("übersetze", "ins Englische übersetzen"),
     ("translate", "ins Englische übersetzen"),
     ("englisch", "ins Englische übersetzen"),
     ("mach formeller", "formeller machen"),
     ("formell", "formeller machen"),
     ("professionell", "formeller machen"),
     ("vereinfach", "vereinfachen"),
     ("einfacher", "vereinfachen"),
     ("simple", "vereinfachen"),
     ("kürzer", "kürzer machen"),
     ("kürze", "kürzer machen"),
     ("reduzieren", "kürzer machen"),
     ("korrigier", "Rechtschreibung und Grammatik korrigieren"),
     ("korrigiere", "Rechtschreibung und Grammatik korrigieren"),
     ("fehler", "Rechtschreibung und Grammatik korrigieren"),
     ("wieviel wörter", "Zähle die Anzahl der Wörter in diesem Text"),
     ("wie viele wörter", "Zähle die Anzahl der Wörter in diesem Text"),
     ("wieviel wörter sind enthalten", "Zähle die Anzahl der Wörter in diesem Text"),
     ("wie viele wörter sind enthalten", "Zähle die Anzahl der Wörter in diesem Text"),
     ("wörter zählen", "Zähle die Anzahl der Wörter in diesem Text"),
     ("anzahl wörter", "Zähle die Anzahl der Wörter in diesem Text"),
     ("count words", "Zähle die Anzahl der Wörter in diesem Text"),
     ("wieviel zeichen", "Zähle die Anzahl der Zeichen in diesem Text"),
     ("wie viele zeichen", "Zähle die Anzahl der Zeichen in diesem Text"),
     ("zeichen zählen", "Zähle die Anzahl der Zeichen in diesem Text"),
     ("wieviel sätze", "Zähle die Anzahl der Sätze in diesem Text"),
     ("wie viele sätze", "Zähle die Anzahl der Sätze in diesem Text"),
     ("sätze zählen", "Zähle die Anzahl der Sätze in diesem Text")]
  match commandMappings.lookup normalized with
  | some canonical => canonical
  | none => rawCommand

/-- `processFastTrackCommand` (`chatService.ts` lines 54-104): local
offline handling of deterministic commands (word/char/sentence counting,
basic cleanup); `none` means "no fast-track possible". -/
def processFastTrackCommand (command text : String) : Option ChatResult :=
  let normalizedCommand := jsTrim (jsToLower command)
  if strContains normalizedCommand "wörter zählen" ||
      strContains normalizedCommand "wie viele wörter" then
    let wordCount := (jsSplitWs (jsTrim text)).length
    some { processedText := s!"Der Text enthält {wordCount} Wörter.",
           originalCommand := command, tokensUsed := none }
  else if strContains normalizedCommand "zeichen zählen" ||
      strContains normalizedCommand "wie viele zeichen" then
    let charCount := text.length
    let charCountNoSpaces := (stripWs text).length
    some { processedText :=
             s!"Der Text enthält {charCount} Zeichen ({charCountNoSpaces} ohne Leerzeichen).",
           originalCommand := command, tokensUsed := none }
  else if strContains normalizedCommand "sätze zählen" ||
      strContains normalizedCommand "wie viele sätze" then
    -- `text.split(/[.!?]+/)` splits on runs of sentence terminators; since
    -- the blank pieces are filtered right after, splitting on each single
    -- terminator yields the same count.
    let sentenceCount :=
      (((splitListBy (fun c => c = '.' || c = '!' || c = '?') text.toList).map String.mk).filter
        (fun s => jsTrim s ≠ "")).length
    some { processedText := s!"Der Text enthält {sentenceCount} Sätze.",
           originalCommand := command, tokensUsed := none }
  else if strContains normalizedCommand "korrigier" && text.length < 200 then
    let corrected :=
      jsTrim (jsSquashRuns '!' "!"
        (jsSquashRuns '?' "?"
          (jsSquashRuns '.' "..." (jsCollapseWs text))))
    some { processedText := capitalizeFirst corrected,
           originalCommand := command, tokensUsed := none }
  else
    none

/-- `isSimpleCommand` (`chatService.ts` lines 109-119): selects the cheap
model for a fixed list of simple command keywords. -/
def isSimpleCommand (command : String) : Bool :=
  let normalizedCommand := jsTrim (jsToLower command)
  ["kürzer", "vereinfach", "formell", "korrigier", "groß", "klein",
   "übersetze", "englisch", "deutsch", "french", "spanish",
   "punkte", "liste", "struktur", "format"].any
    (fun cmd => strContains normalizedCommand cmd)

/-- The `commandCache` of `ChatService` (`chatService.ts` line 20): a map
from cache key to result plus insertion timestamp, modelled as an
association list (latest binding first, as `Map.set` overwrites). -/
abbrev ChatCache := List (String × ChatResult × Int)

/-- `Map.get` on the cache. -/
def cacheGet (cache : ChatCache) (key : String) : Option (ChatResult × Int) :=
  (List.lookup key cache)

/-- `Map.set` on the cache: overwrite any existing binding for `key`. -/
def cacheSet (cache : ChatCache) (key : String) (entry : ChatResult × Int) :
    ChatCache :=
  (key, entry) :: (List.filter (fun kv => kv.1 ≠ key) cache)

/-- The cache key (`chatService.ts` line 134):
`command + ":" + originalText.substring(0, 100)`. -/
def cacheKey (command originalText : String) : String :=
  command ++ ":" ++ strTake originalText 100

/-- Result of one `processTextWithCommand` call: the value (or thrown
error), the cache afterwards, and whether the remote chat endpoint was
contacted. -/
structure ProcessOutcome where
  result : Except String ChatResult
  cache : ChatCache
  endpointCalled : Bool
  deriving Repr

/-- `processTextWithCommand` (`chatService.ts` lines 124-231).  `endpoint`
is the remote chat-completions stub: given (command, originalText) it
returns the streamed text or an error.  Order as in the source: cache
lookup (5-minute lifetime), then local fast-track (result cached), then
the remote call with trimmed non-empty validation (result cached). -/
def processTextWithCommand (cache : ChatCache) (command originalText : String)
    (now : Int) (endpoint : String → String → Except String String) :
    ProcessOutcome :=
  let key := cacheKey command originalText
  match cacheGet cache key with
  | some (cachedResult, ts) =>
      if now - ts < 300000 then
        { result := .ok cachedResult, cache := cache, endpointCalled := false }
      else
        processUncached cache key command originalText now endpoint
  | none => processUncached cache key command originalText now endpoint
where
  processUncached (cache : ChatCache) (key command originalText : String)
      (now : Int) (endpoint : String → String → Except String String) :
      ProcessOutcome :=
    match processFastTrackCommand command originalText with
    | some fastTrackResult =>
        { result := .ok fastTrackResult
          cache := cacheSet cache key (fastTrackResult, now)
          endpointCalled := false }
    | none =>
        match endpoint command originalText with
        | .error e =>
            { result := .error s!"Text-Verarbeitung fehlgeschlagen: {e}"
              cache := cache, endpointCalled := true }
        | .ok streamedText =>
            let processedText := jsTrim streamedText
            if processedText = "" then
              { result := .error "Leere Antwort von OpenAI erhalten"
                cache := cache, endpointCalled := true }
            else
              let result : ChatResult :=
                { processedText := processedText, originalCommand := command,
                  tokensUsed := some ((streamedText.length + 3) / 4) }
              { result := .ok result
                cache := cacheSet cache key (result, now)
                endpointCalled := true }

end ChatServiceModel

section TranscriptionServiceModel

/-- The options object assembled in `transcribeAudio` and threaded through
`transcribeWithRetry` (`transcriptionService.ts` lines 139-146).
`temperature` is modelled as an exact rational. -/
structure WhisperOptions where
  model : String
  language : String
  response_format : String
  temperature : ℚ
  prompt : String
  deriving DecidableEq, Repr

/-- A response of the transcription endpoint: either a plain string (the
`'text'` response format) or an object with a `text` field
(`'verbose_json'`). -/
inductive WhisperResponse
  | strResp (s : String)
  | jsonResp (text : String)
  deriving DecidableEq, Repr

/-- The success validation inside `transcribeWithRetry`
(`transcriptionService.ts` line 286):
`response && (typeof response === 'string' || (response.text && response.text.trim()))`.
A falsy (empty) string response fails; an object response needs a truthy,
non-blank `text`. -/
def responseOk : WhisperResponse → Bool
  | .strResp s => s ≠ ""
  | .jsonResp t => t ≠ "" && jsTrim t ≠ ""

/-- The prompt substituted on the final retry attempt
(`transcriptionService.ts` lines 267-270). -/
def degradedAudioPrompt : String :=
  "Dies ist deutsche Sprache mit möglicherweise schlechter Audioqualität. " ++
  "Nutze maximale Empfindlichkeit und aggressive Erkennung."

/-- `retryConfigs` (`transcriptionService.ts` lines 261-271): attempt 1 the
base options verbatim, attempt 2 temperature `min(1.0, t + 0.3)`, attempt 3
temperature `1.0` with the degraded-audio prompt. -/
def retryConfigs (base : WhisperOptions) : List WhisperOptions :=
  [base,
   { base with temperature := min 1 (base.temperature + 3/10) },
   { base with temperature := 1, prompt := degradedAudioPrompt }]

/-- `retryConfigs[attempt] || retryConfigs[retryConfigs.length - 1]`
(`transcriptionService.ts` line 277): out-of-range attempts fall back to
the last configuration. -/
def attemptConfig (base : WhisperOptions) (attempt : Nat) : WhisperOptions :=
  (retryConfigs base).getD attempt { base with temperature := 1, prompt := degradedAudioPrompt }

/-- The error recorded when an attempt returns a response that fails the
success validation (`transcriptionService.ts` line 292). -/
def emptyResponseError : String := "Leere oder ungültige Antwort"

/-- The error an attempt contributes to `lastError`: the thrown transport
error, or `emptyResponseError` for a response failing validation. -/
def attemptError (o : Except String WhisperResponse) : String :=
  match o with
  | .error e => e
  | .ok _ => emptyResponseError

/-- One attempt fails when the endpoint throws or the response fails the
success validation — both are retried identically. -/
def attemptFails (o : Except String WhisperResponse) : Prop :=
  match o with
  | .error _ => True
  | .ok r => responseOk r = false

instance (o : Except String WhisperResponse) : Decidable (attemptFails o) := by
  unfold attemptFails
  match o with
  | .error _ => exact inferInstance
  | .ok r => exact inferInstance

/-- The retry loop of `transcribeWithRetry` (`transcriptionService.ts`
lines 275-310), recursion on the remaining attempts
(`fuel = maxRetries - attempt`).  `endpointStub` maps the attempt index to
the outcome of `client.audio.transcriptions.create` with that attempt's
configuration.  Returns the overall outcome together with the
configuration used for each attempt that was actually made. -/
def retryLoop (endpointStub : Nat → Except String WhisperResponse)
    (base : WhisperOptions) :
    Nat → Nat → Except String WhisperResponse × List WhisperOptions
  | attempt, 0 =>
      -- `attempt === maxRetries`: on failure the last error is rethrown.
      let config := attemptConfig base attempt
      (match endpointStub attempt with
       | .ok r => if responseOk r then .ok r else .error emptyResponseError
       | .error e => .error e,
       [config])
  | attempt, fuel + 1 =>
      let config := attemptConfig base attempt
      match endpointStub attempt with
      | .ok r =>
          if responseOk r then (.ok r, [config])
          else
            let rest := retryLoop endpointStub base (attempt + 1) fuel
            (rest.1, config :: rest.2)
      | .error _ =>
          let rest := retryLoop endpointStub base (attempt + 1) fuel
          (rest.1, config :: rest.2)

/-- `transcribeWithRetry` (`transcriptionService.ts` lines 256-311) with
its attempt trace.  `maxRetries` retries follow the first attempt (the
orchestration calls it with `maxRetries = 2`, i.e. three attempts). -/
def transcribeWithRetry (endpointStub : Nat → Except String WhisperResponse)
    (base : WhisperOptions) (maxRetries : Nat) :
    Except String WhisperResponse × List WhisperOptions :=
  retryLoop endpointStub base 0 maxRetries

/-- Split a list into consecutive chunks of `n` elements (the last one may
be shorter), as the frame loop of `detectSilence` does with
`channelData.slice(i, i + frameSize)`.  (For `n = 0` the JS loop would
never terminate; the model returns no frames, and every claim instantiates
a sample rate ≥ 10 so that `n ≥ 1`.) -/
def chunkListAux (n : Nat) : Nat → List ℚ → List (List ℚ)
  | 0, _ => []
  | _, [] => []
  | fuel + 1, l@(_ :: _) => (l.take n) :: chunkListAux n fuel (l.drop n)

/-- Split a list into consecutive chunks of `n ≥ 1` elements; since each
step consumes at least one element, `l.length` steps of fuel suffice. -/
def chunkList (n : Nat) (l : List ℚ) : List (List ℚ) :=
  if n = 0 then [] else chunkListAux n l.length l

/-- Mean square of a frame.  The JS code compares
`sqrt(meanSquare) < 0.01`; for nonnegative values this is equivalent to
`meanSquare < 0.0001`, which avoids square roots over `ℚ`. -/
def frameMeanSquare (frame : List ℚ) : ℚ :=
  (frame.map (fun x => x * x)).sum / frame.length

/-- A frame is silent iff its RMS is below `0.01`
(`transcriptionService.ts` line 332), stated on the squared value. -/
def frameIsSilent (frame : List ℚ) : Bool :=
  frameMeanSquare frame < 1/10000

/-- An audio recording as consumed by `transcribeAudio`: blob size and MIME
tag, elapsed duration in ms, and the decoded mono channel data with its
sample rate (`none` when `decodeAudioData` fails, in which case
`detectSilence` reports `0`). -/
structure AudioRecording where
  blobSize : Nat
  blobType : String
  duration : Int
  samples : Option (List ℚ)
  sampleRate : Nat
  deriving Repr

/-- `detectSilence` (`transcriptionService.ts` lines 314-348): fraction of
100 ms frames whose RMS is below the silence threshold; `1` when there are
no frames, `0` when decoding fails.  `Math.floor(sampleRate * 0.1)` is
`sampleRate / 10` for integer sample rates. -/
def detectSilence (rec : AudioRecording) : ℚ :=
  match rec.samples with
  | none => 0
  | some channelData =>
      let frameSize := rec.sampleRate / 10
      let frames := chunkList frameSize channelData
      let silentFrames := (frames.filter frameIsSilent).length
      let totalFrames := frames.length
      if totalFrames > 0 then (silentFrames : ℚ) / totalFrames else 1

/-- `TranscriptionResult` (`transcriptionService.ts` lines 11-16). -/
structure TranscriptionResult where
  text : String
  language : Option String
  duration : Option Int
  confidence : Option ℚ
  deriving DecidableEq, Repr

/-- The "too short" placeholder (`transcriptionService.ts` lines 107-114). -/
def tooShortResult (duration : Int) : TranscriptionResult :=
  { text := "[Aufnahme zu kurz - bitte sprechen Sie länger]",
    language := none, duration := some duration, confidence := some 0 }

/-- The "silence" placeholder (`transcriptionService.ts` lines 117-125). -/
def silenceResult (duration : Int) : TranscriptionResult :=
  { text := "[Nur Stille erkannt - bitte lauter sprechen]",
    language := none, duration := some duration, confidence := some 0 }

/-- The validation and pre-flight part of `transcribeAudio`
(`transcriptionService.ts` lines 86-157): invalid or oversized blobs throw;
too-short or mostly-silent recordings return a placeholder without
contacting the endpoint; otherwise the remote retry pipeline runs.
`endpoint` abstracts `transcribeWithRetry` plus response post-processing;
the boolean in the result records whether it was contacted. -/
def transcribeAudio (rec : AudioRecording)
    (endpoint : Unit → Except String TranscriptionResult) :
    Except String (TranscriptionResult × Bool) :=
  if rec.blobSize = 0 then
    .error "Keine gültige Audio-Datei vorhanden"
  else if rec.blobSize > 25 * 1024 * 1024 then
    .error "Audio-Datei zu groß"
  else if rec.duration < 300 then
    .ok (tooShortResult rec.duration, false)
  else if detectSilence rec > 8/10 then
    .ok (silenceResult rec.duration, false)
  else
    match endpoint () with
    | .ok r => .ok (r, true)
    | .error e => .error e

end TranscriptionServiceModel

section StopProcessing

/-- `hasValidClipboardText` (`useAppState.ts` line 301): the JS test
`state.clipboardText && state.clipboardText.trim().length > 0`. -/
def hasValidClipboardText (clip : Option String) : Bool :=
  match clip with
  | some c => jsTrim c ≠ ""
  | none => false

/-- The preview transcription shown while a command is being processed
(`useAppState.ts` line 312). -/
def previewTranscription (commandText : String) : String :=
  "Befehl: \"" ++ commandText ++ "\"\n\n⚡ Verarbeite Text..."

/-- The final transcription for a processed command
(`useAppState.ts` line 323). -/
def finalTranscription (originalCommand processedText : String) : String :=
  "Befehl: \"" ++ originalCommand ++ "\"\n\nErgebnis:\n" ++ processedText

/-- The fallback transcription when the rewrite fails
(`useAppState.ts` line 349). -/
def rewriteFallback (rawCommand : String) : String :=
  "Befehl erkannt: \"" ++ rawCommand ++
  "\"\n\nFehler bei der Verarbeitung. Bitte versuchen Sie es erneut."

/-- The `finally` block of `stopRecording` (`useAppState.ts` lines
391-402): end the transcribing phase, reset the mode and selection
snapshot, clear the processing flag (`lastProcessedResult` is kept for
the echo guard). -/
def stopRecordingFinally (st : AppState) : AppState :=
  let st := setTranscribing false st
  { st with mode := .normal, clipboardText := none, isProcessingText := false }

/-- Outcome of the post-transcription half of `stopRecording`: final state,
whether `chatService.processTextWithCommand` was invoked, and the texts
passed to `tauriClipboardService.copyText`. -/
structure StopOutcome where
  state : AppState
  chatCalled : Bool
  copiedTexts : List String
  deriving Repr

/-- The post-transcription half of `stopRecording` (`useAppState.ts`
lines 300-402), taking the state captured by the callback (`capMode`,
`capClip` — the orchestrator re-validates the captured selection snapshot
before branching into text processing).  `resultText` is the transcription
result, `chatStub` the outcome of the rewrite pipeline for a given
(command, source text), `copyOk`/`now` the clipboard write outcome and the
`Date.now()` at tracking time.  Both branches run the `finally` cleanup
(end transcribing, reset mode and selection, clear the processing flag). -/
def stopPostProcess (capMode : AppMode) (capClip : Option String)
    (resultText : String) (chatStub : String → String → Except String String)
    (copyOk : Bool) (now : Int) (st : AppState) : StopOutcome :=
  let shouldProcessText := capMode = .textProcessing && hasValidClipboardText capClip
  if shouldProcessText then
    let st := { st with isProcessingText := true }
    let st := setTranscription (some (previewTranscription resultText)) st
    let normalizedCommand := normalizeCommand resultText
    match chatStub normalizedCommand (capClip.getD "") with
    | .ok processedText =>
        let st := setTranscription (some (finalTranscription normalizedCommand processedText)) st
        let st :=
          if copyOk then
            { st with lastProcessedResult := some processedText,
                      lastProcessedTimestamp := some now }
          else st
        let st := { st with isProcessingText := false }
        { state := stopRecordingFinally st, chatCalled := true,
          copiedTexts := [processedText] }
    | .error e =>
        let st := setError (some e) st
        let st := setTranscription (some (rewriteFallback resultText)) st
        let st := { st with isProcessingText := false }
        { state := stopRecordingFinally st, chatCalled := true, copiedTexts := [] }
  else
    let st := setTranscription (some resultText) st
    let st := { st with lastProcessedResult := none, lastProcessedTimestamp := none }
    { state := stopRecordingFinally st, chatCalled := false, copiedTexts := [resultText] }

end StopProcessing

section Orchestrator

/-!
The recording orchestrator (`toggleRecording`, `startRecording`,
`stopRecording`, the debounced detection) is asynchronous JavaScript on a
single thread: a synchronous segment runs atomically between `await`
suspension points, and pending continuations resume in an arbitrary order
decided by the event loop and the external services.  The transition
system below has configurations `(state, pending continuations)`; an
`Evt` either delivers a hotkey event (`toggle`/`stop`) or resumes one
pending continuation with the outcome of the awaited external call.  Each
action applies exactly the `setState` updates of the corresponding
synchronous segment of `useAppState.ts` (React 18 commits them together).
The detection body, which in reality spans several short awaits of its
own, is taken as one segment: this only restricts the schedules, and no
claim depends on interleaving within a detection.  Hotkey events read the
freshly rendered state (the `useCallback` hooks are re-created on each
commit); the state a `stopRecording` callback captured at dispatch time is
carried inside its continuation (`capMode`, `capClip`), exactly as the JS
closure does.
-/

/-- A pending continuation, i.e. a point where an orchestrator call sits
suspended at an `await`. -/
inductive Pending
  /-- `startRecording` suspended at `Promise.all` (`useAppState.ts` line 231). -/
  | startAwait
  /-- `startRecording` suspended at `audioService.startRecording()` (line 250). -/
  | startAudioAwait
  /-- a debounced detection whose timer/body has not completed yet (lines 130-145). -/
  | detectAwait
  /-- `stopRecording` suspended at `audioService.stopRecording()` (line 279),
  with the mode and selection snapshot captured by its closure. -/
  | stopAudioAwait (capMode : AppMode) (capClip : Option String)
  /-- `stopRecording` suspended at `transcribeAudio` (line 296). -/
  | stopTransAwait (capMode : AppMode) (capClip : Option String)
  /-- `stopRecording` suspended at `processTextWithCommand` (line 317);
  carries the raw transcription (the spoken command). -/
  | chatAwait (rawCommand : String)
  /-- `stopRecording` suspended at `copyText` in the dictation branch (line 374). -/
  | copyNormalAwait
  /-- `stopRecording` suspended at `copyText` in the command branch (line 328). -/
  | copyChatAwait (processed : String)
  deriving DecidableEq, Repr

/-- The outcome of `audioService.startRecording()`: success, an error whose
message contains `'bereits'` (already active — swallowed, line 254), or any
other capture error. -/
inductive AudioStartOutcome
  | ok
  | activeAlready
  | err (msg : String)
  deriving DecidableEq, Repr

/-- A configuration of the event loop: committed React state plus the
pending continuations. -/
structure Config where
  st : AppState
  tasks : List Pending
  deriving DecidableEq, Repr

/-- The initial configuration. -/
def initConfig : Config := { st := initialAppState, tasks := [] }

/-- The synchronous prefix of `startRecording` (`useAppState.ts` lines
214-236): re-entrance guard, `setError(null)`, optimistic
`setRecording(true)`, then suspension at `Promise.all` (which also
schedules the debounced detection). -/
def startSeg1 (cfg : Config) : Config :=
  if cfg.st.isTranscribing || cfg.st.isRecording || cfg.st.isProcessingText then cfg
  else
    let st := setError none cfg.st
    let st := setRecording true st
    { st := st, tasks := cfg.tasks ++ [.startAwait, .detectAwait] }

/-- The synchronous prefix of `stopRecording` (`useAppState.ts` lines
269-279): guard, `setRecording(false)`, `setTranscribing(true)`, then
suspension at `audioService.stopRecording()`; the closure has captured the
current mode and selection snapshot. -/
def stopSeg1 (cfg : Config) : Config :=
  if !cfg.st.isRecording || cfg.st.isTranscribing then cfg
  else
    let st := setRecording false cfg.st
    let st := setTranscribing true st
    { st := st, tasks := cfg.tasks ++ [.stopAudioAwait cfg.st.mode cfg.st.clipboardText] }

/-- `toggleRecording` (`useAppState.ts` lines 405-421). -/
def toggleSeg (cfg : Config) : Config :=
  if cfg.st.isTranscribing || cfg.st.isProcessingText then cfg
  else if cfg.st.isRecording then stopSeg1 cfg
  else startSeg1 cfg

/-- A scheduler step: deliver a hotkey event, or resume the `i`-th pending
continuation with the outcome of its awaited call.  `resumeDetect` carries
the clipboard contents seen by the detection, `resumeStopTrans` the
transcription outcome, `resumeChat` the rewrite outcome, the copy resumes
the clipboard write outcome (and `Date.now()` for the echo tracking). -/
inductive Evt
  | toggle
  | stopEvt
  | resumeStart (i : Nat) (perm : Bool)
  | resumeStartAudio (i : Nat) (outcome : AudioStartOutcome)
  | resumeDetect (i : Nat) (copyOk : Bool) (beforeRaw afterRaw : String) (now : Int)
  | resumeStopAudio (i : Nat) (res : Except String Unit)
  | resumeStopTrans (i : Nat) (res : Except String String)
  | resumeChat (i : Nat) (res : Except String String)
  | resumeCopyNormal (i : Nat) (ok : Bool)
  | resumeCopyChat (i : Nat) (ok : Bool) (now : Int)
  deriving Repr

/-- Apply one action; `none` if the action does not match a pending
continuation (an impossible schedule). -/
def applyAction (cfg : Config) : Evt → Option Config
  | .toggle => some (toggleSeg cfg)
  | .stopEvt => some (stopSeg1 cfg)
  | .resumeStart i perm =>
      match cfg.tasks.get? i with
      | some .startAwait =>
          let tasks := cfg.tasks.eraseIdx i
          if perm then
            -- permission granted: proceed to `audioService.startRecording()`
            some { st := cfg.st, tasks := tasks ++ [.startAudioAwait] }
          else
            -- permission denied (lines 242-246): rollback + error
            let st := setRecording false cfg.st
            let st := setError (some "Mikrofon-Berechtigung erforderlich") st
            some { st := st, tasks := tasks }
      | _ => none
  | .resumeStartAudio i outcome =>
      match cfg.tasks.get? i with
      | some .startAudioAwait =>
          let tasks := cfg.tasks.eraseIdx i
          match outcome with
          | .ok => some { st := cfg.st, tasks := tasks }
          | .activeAlready => some { st := cfg.st, tasks := tasks }
          | .err msg =>
              -- rollback (line 258) then the outer catch (lines 262-266)
              let st := setRecording false cfg.st
              let st := setError (some msg) st
              some { st := st, tasks := tasks }
      | _ => none
  | .resumeDetect i copyOk beforeRaw afterRaw now =>
      match cfg.tasks.get? i with
      | some .detectAwait =>
          let (_, st) := autoDetectBody copyOk beforeRaw afterRaw now cfg.st
          some { st := st, tasks := cfg.tasks.eraseIdx i }
      | _ => none
  | .resumeStopAudio i res =>
      match cfg.tasks.get? i with
      | some (.stopAudioAwait capMode capClip) =>
          let tasks := cfg.tasks.eraseIdx i
          match res with
          | .ok _ =>
              -- capture ended: proceed to the transcription await
              some { st := cfg.st, tasks := tasks ++ [.stopTransAwait capMode capClip] }
          | .error e =>
              -- catch (lines 388-390) then finally (lines 391-402)
              let st := setError (some e) cfg.st
              some { st := stopRecordingFinally st, tasks := tasks }
      | _ => none
  | .resumeStopTrans i res =>
      match cfg.tasks.get? i with
      | some (.stopTransAwait capMode capClip) =>
          let tasks := cfg.tasks.eraseIdx i
          match res with
          | .error e =>
              let st := setError (some e) cfg.st
              some { st := stopRecordingFinally st, tasks := tasks }
          | .ok t =>
              if capMode = .textProcessing && hasValidClipboardText capClip then
                -- lines 306-312: optimistic processing state + preview,
                -- then suspension at the rewrite call
                let st := { cfg.st with isProcessingText := true }
                let st := setTranscription (some (previewTranscription t)) st
                some { st := st, tasks := tasks ++ [.chatAwait t] }
              else
                -- lines 354-372: dictation output, reset echo tracking,
                -- then suspension at the clipboard write
                let st := setTranscription (some t) cfg.st
                let st := { st with lastProcessedResult := none,
                                    lastProcessedTimestamp := none }
                some { st := st, tasks := tasks ++ [.copyNormalAwait] }
      | _ => none
  | .resumeChat i res =>
      match cfg.tasks.get? i with
      | some (.chatAwait rawCommand) =>
          let tasks := cfg.tasks.eraseIdx i
          match res with
          | .ok processed =>
              -- lines 322-328: final result, then suspension at `copyText`
              let st := setTranscription
                (some (finalTranscription (normalizeCommand rawCommand) processed)) cfg.st
              some { st := st, tasks := tasks ++ [.copyChatAwait processed] }
          | .error e =>
              -- catch (lines 344-349), inner finally (line 351), outer finally
              let st := setError (some e) cfg.st
              let st := setTranscription (some (rewriteFallback rawCommand)) st
              let st := { st with isProcessingText := false }
              some { st := stopRecordingFinally st, tasks := tasks }
      | _ => none
  | .resumeCopyNormal i _ =>
      match cfg.tasks.get? i with
      | some .copyNormalAwait =>
          -- the copy outcome is only logged; then the outer finally runs
          some { st := stopRecordingFinally cfg.st, tasks := cfg.tasks.eraseIdx i }
      | _ => none
  | .resumeCopyChat i ok now =>
      match cfg.tasks.get? i with
      | some (.copyChatAwait processed) =>
          -- lines 329-340: on success, track the output for the echo guard;
          -- inner finally (line 351) and outer finally run in the same segment
          let st :=
            if ok then
              { cfg.st with lastProcessedResult := some processed,
                            lastProcessedTimestamp := some now }
            else cfg.st
          let st := { st with isProcessingText := false }
          some { st := stopRecordingFinally st, tasks := cfg.tasks.eraseIdx i }
      | _ => none

/-- Run a list of scheduler actions from a configuration. -/
def runActions (cfg : Config) (actions : List Evt) : Option Config :=
  actions.foldlM applyAction cfg

end Orchestrator

section ClaimDefinitions

/-- The violating schedule for the mutual-exclusion claim.  Every step is a
legal JavaScript event-loop step (hotkey events are delivered only when the
guards admit them; each continuation resumes after its awaited call
settles):
1. `toggle` starts session 1 (optimistic `isRecording`); its `Promise.all`
   is pending.  2. its detection resolves (clipboard unchanged).
3. `toggle` stops: `isTranscribing := true`, awaiting `stopRecording()` of
   the capture device.  4. the capture device rejects (capture never began),
   the `catch`/`finally` return the state to idle — but session 1's
   permission query is *still pending*.  5. `toggle` starts session 2.
6. session 2's detection finds a fresh selection (mode becomes
   `text-processing`).  7./8. session 1's stale permission resolves `true`
   and its capture start succeeds.  9. `toggle` stops session 2 (captured
   mode `text-processing`), 10. capture ends, the transcription call is in
   flight with `isTranscribing = true`.  11. session 2's own stale
   permission query resolves `false`: the rollback `setError` clears
   `isTranscribing` although the transcription is still in flight.
12. `toggle` now passes every guard and starts session 3
   (`isRecording := true`).  13. the in-flight transcription resolves and
   enters the rewrite phase: `isProcessingText := true` while
   `isRecording = true`. -/
def mutualExclusionViolationTrace : List Evt :=
  [.toggle,
   .resumeDetect 1 true "x" "x" 100,
   .toggle,
   .resumeStopAudio 1 (.error "Keine aktive Aufnahme gefunden"),
   .toggle,
   .resumeDetect 2 true "a" "selber text" 200,
   .resumeStart 0 true,
   .resumeStartAudio 1 .ok,
   .toggle,
   .resumeStopAudio 1 (.ok ()),
   .resumeStart 0 false,
   .toggle,
   .resumeStopTrans 0 (.ok "mach formeller")]

/-- The permission-denial schedule with a detected selection: one `toggle`,
the detection resolves with a fresh selection, then the permission check
resolves `false`. -/
def permissionDenialTrace : List Evt :=
  [.toggle, .resumeDetect 1 true "vorher" "auswahl" 1000, .resumeStart 0 false]

/-- One complete session under the canonical schedule, parameterized by the
stub outcomes: detection finds a selection or not (`detSel`), permission
(`perm`), capture start (`audioOk` / `audioActive` for the swallowed
already-active error / otherwise a device error), capture stop
(`stopAudioOk`), transcription (`transOk`), rewrite (`chatOk`), clipboard
write (`copyOk`).  Later stages only exist on the paths that reach them. -/
def sessionEvts (detSel perm audioOk audioActive stopAudioOk transOk chatOk copyOk : Bool) :
    List Evt :=
  [.toggle,
   .resumeDetect 1 true "vorher" (if detSel then "auswahl" else "vorher") 1000,
   .resumeStart 0 perm]
  ++ if !perm then [] else
    [.resumeStartAudio 0 (if audioOk then .ok else if audioActive then .activeAlready
                          else .err "Kein Mikrofon gefunden")]
    ++ if !audioOk && !audioActive then [] else
      [.toggle,
       .resumeStopAudio 0 (if stopAudioOk then .ok ()
                           else .error "Keine aktive Aufnahme gefunden")]
      ++ if !stopAudioOk then [] else
        [.resumeStopTrans 0 (if transOk then .ok "hallo welt"
                             else .error "Transkription fehlgeschlagen")]
        ++ if !transOk then [] else
          if detSel then
            [.resumeChat 0 (if chatOk then .ok "Hallo Welt"
                            else .error "OpenAI Server-Fehler")]
            ++ if chatOk then [.resumeCopyChat 0 copyOk 5000] else []
          else [.resumeCopyNormal 0 copyOk]

/-- Run one complete session from the initial configuration. -/
def sessionRun (detSel perm audioOk audioActive stopAudioOk transOk chatOk copyOk : Bool) :
    Option Config :=
  runActions initConfig
    (sessionEvts detSel perm audioOk audioActive stopAudioOk transOk chatOk copyOk)

/-- An own-output text matching the screenshot-artifact pattern, for the
echo-window counterexample. -/
def echoArtifactText : String := "/var/folders/zz screencaptureui kopie"

/-- A state in which the system has recorded its own output `"Hallo Welt"`
at time `T = 1000`. -/
def echoWitnessState : AppState :=
  { initialAppState with lastProcessedResult := some "Hallo Welt",
                         lastProcessedTimestamp := some 1000 }

/-- Base transcription options with temperature `0.2` (the
command-session options built in `stopRecording`). -/
def baseOptionsC4 : WhisperOptions :=
  { model := "whisper-1", language := "de", response_format := "verbose_json",
    temperature := 1/5,
    prompt := "Dies ist deutsche Sprache. Transkribiere diesen kurzen Sprachbefehl präzise." }

/-- Endpoint stub failing attempts 1 and 2 (a transport error, then a
blank-text response) and succeeding on attempt 3. -/
def retryStub : Nat → Except String WhisperResponse
  | 0 => .error "Rate-Limit erreicht"
  | 1 => .ok (.jsonResp "   ")
  | _ => .ok (.jsonResp "mach formeller")

/-- Endpoint stub failing all attempts. -/
def retryStubAllFail : Nat → Except String WhisperResponse
  | 0 => .error "Netzwerkfehler"
  | 1 => .error "Netzwerkfehler"
  | _ => .ok (.strResp "")

/-- A 200 ms recording (below the 300 ms minimum). -/
def shortRecording : AudioRecording :=
  { blobSize := 5000, blobType := "audio/webm", duration := 200,
    samples := some [], sampleRate := 44100 }

/-- A 400 ms recording whose decoded samples are entirely silent
(ten zero samples at 100 Hz: one 100 ms frame with RMS `0 < 0.01`, so
100 % > 80 % of the frames are silent). -/
def silentRecording : AudioRecording :=
  { blobSize := 5000, blobType := "audio/webm", duration := 400,
    samples := some [0, 0, 0, 0, 0, 0, 0, 0, 0, 0], sampleRate := 100 }

/-- A transcription endpoint stub that records contact by raising. -/
def endpointMustNotBeCalled : Unit → Except String TranscriptionResult :=
  fun _ => .error "Endpoint kontaktiert"

/-- 100 identical leading characters for the cache-key collision. -/
def cachePrefix100 : String := String.mk (List.replicate 100 'a')

/-- First request text: the shared 100-character prefix plus one tail. -/
def cacheText1 : String := cachePrefix100 ++ " erster schluss"

/-- Second request text: same first 100 characters, different tail. -/
def cacheText2 : String := cachePrefix100 ++ " zweiter anders"

/-- First `processTextWithCommand` request at `t = 1000` (endpoint
returns `"R1"`). -/
def cacheRun1 : ProcessOutcome :=
  processTextWithCommand [] "mach es poetisch" cacheText1 1000 (fun _ _ => .ok "R1")

/-- Second request 1 s later with the other text; its endpoint stub would
return `"R2"`, so any `"R1"` answer must come from the cache. -/
def cacheRun2 : ProcessOutcome :=
  processTextWithCommand cacheRun1.cache "mach es poetisch" cacheText2 2000
    (fun _ _ => .ok "R2")

end ClaimDefinitions

section HelperLemmas

/-- `handleTextProcessingMode` in terms of the two named guards: filter
the screenshot artifact, suppress a fresh own echo (clearing the guard
record), otherwise activate text-processing mode. -/
theorem handleTextProcessingMode_eq (text : String) (now : Int) (st : AppState) :
    handleTextProcessingMode text now st =
      if isScreenshotArtifact text then handleNormalMode st
      else if isOwnEcho st text now then
        (.normal,
         { st with mode := .normal, clipboardText := none, error := none,
                   lastProcessedResult := none, lastProcessedTimestamp := none })
      else
        (.textProcessing,
         { st with mode := .textProcessing, clipboardText := some text,
                   error := none }) := by
  unfold handleTextProcessingMode isOwnEcho
  rcases hr : st.lastProcessedResult with _ | r <;>
    rcases ht : st.lastProcessedTimestamp with _ | ts <;>
      simp only []
  · split <;> rfl
  · split <;> rfl
  · split <;> rfl
  · by_cases hart : isScreenshotArtifact text
    · simp [hart]
    · by_cases hcond : (¬r = "" ∧ ¬ts = 0) ∧ text = r
      · by_cases hfresh : now - ts < 60000
        · simp [hart, hcond, hfresh]
        · simp [hart, hcond, hfresh]
      · simp [hart, hcond]

end HelperLemmas

section ClaimTheorems

/-- **C1** (code bug).  The claimed invariant — at most one of
`isRecording`, `isTranscribing`, `isProcessingText` true at any instant,
for every sequence of `toggle`/`stop` events — is violated by the legal
schedule `mutualExclusionViolationTrace`: a stale `startRecording`
continuation whose permission check resolves `false` during another
session's in-flight transcription clears `isTranscribing` (via `setError`),
a further `toggle` then passes every guard and sets `isRecording`, and
when the old transcription resolves into the rewrite branch the final
committed state has `isRecording = true` and `isProcessingText = true`
simultaneously. -/
theorem phase_flags_can_overlap :
    (runActions initConfig mutualExclusionViolationTrace).map
        (fun c => (c.st.isRecording, c.st.isTranscribing, c.st.isProcessingText)) =
      some (true, false, true) := by
  decide

/-- **C5** (code bug).  For the spoken command `"wie viele wörter"` on the
selection `"one two three"`, the pipeline (normalization, then
`processTextWithCommand`) does *not* use the local fast-track:
`normalizeCommand` rewrites the command to
`"Zähle die Anzahl der Wörter in diesem Text"`, which matches neither
fast-track pattern (`'wörter zählen'`, `'wie viele wörter'`), so the
remote endpoint is contacted.  The last conjunct shows the fast-track
would have handled the un-normalized phrase locally with the correct
count of 3 — the code's own trigger list names exactly this phrase. -/
theorem fast_track_bypassed_by_normalization :
    normalizeCommand "wie viele wörter" = "Zähle die Anzahl der Wörter in diesem Text" ∧
    processFastTrackCommand (normalizeCommand "wie viele wörter") "one two three" = none ∧
    (processTextWithCommand [] (normalizeCommand "wie viele wörter") "one two three" 0
        (fun _ _ => .ok "Der Text enthält 3 Wörter.")).endpointCalled = true ∧
    processFastTrackCommand "wie viele wörter" "one two three" =
      some { processedText := "Der Text enthält 3 Wörter.",
             originalCommand := "wie viele wörter", tokensUsed := none } := by
  decide

/-- **C10** (confirmed).  The rewrite cache key is the command plus the
first 100 characters of the source text, with a 5-minute lifetime: two
requests 1 s apart with the same command and texts that agree on their
first 100 characters but differ afterwards — the first contacts the
endpoint (`"R1"`), the second returns the first's cached result without
contacting its endpoint (which would have answered `"R2"`). -/
theorem cache_prefix_collision :
    cacheText1 ≠ cacheText2 ∧
    strTake cacheText1 100 = strTake cacheText2 100 ∧
    (2000 : Int) - 1000 < 300000 ∧
    cacheRun1.endpointCalled = true ∧
    cacheRun1.result = .ok { processedText := "R1", originalCommand := "mach es poetisch",
                             tokensUsed := some 1 } ∧
    cacheRun2.endpointCalled = false ∧
    cacheRun2.result = cacheRun1.result := by
  decide

/-- **C8** (counterexample).  A session path that does not end with
`mode` reset to `normal`: `toggle`, the detection finds a fresh selection
(mode becomes `text-processing`), then the permission check resolves
`false`.  The three phase flags are cleared and the error is set, but no
`finally` resets the mode — the claimed post-state "mode reset to normal"
is false on this path. -/
theorem permission_denial_mode_counterexample :
    (runActions initConfig permissionDenialTrace).map
        (fun c => (c.st.isRecording, c.st.isTranscribing, c.st.isProcessingText,
                   c.st.mode, c.st.error)) =
      some (false, false, false, AppMode.textProcessing,
            some "Mikrofon-Berechtigung erforderlich") := by
  decide

end ClaimTheorems

/-- **C2** (counterexample).  The claim quantifies over every recorded own
output `X`; it fails when `X` matches the screenshot-artifact pattern:
with `X = echoArtifactText` recorded at `T = 1000`, a detection at
`now = 61001 ≥ T + 60000` (outside the echo window) is still classified as
Dictation by the artifact filter, not as CommandOnSelection with
`selectionText = X` as claimed. -/
theorem echo_window_artifact_counterexample :
    echoArtifactText ≠ "" ∧
    (61001 : Int) - 1000 ≥ 60000 ∧
    (handleTextProcessingMode echoArtifactText 61001
        { initialAppState with lastProcessedResult := some echoArtifactText,
                               lastProcessedTimestamp := some 1000 }).1 =
      AppMode.normal ∧
    (handleTextProcessingMode echoArtifactText 61001
        { initialAppState with lastProcessedResult := some echoArtifactText,
                               lastProcessedTimestamp := some 1000 }).2.clipboardText =
      none := by
  decide

/-- **C2** (amended).  After the system records its own non-empty output
`X` (at a positive wall-clock time `T`, as `Date.now()` always is),
*provided `X` does not match the screenshot-artifact pattern*: a detection
delivering clipboard-after `X` strictly before `T + 60000` is classified
as Dictation (echo suppressed), and one at or after `T + 60000` is
classified as CommandOnSelection with `selectionText = X`.  (Within the
window the Dictation classification holds even for artifact `X`, via the
artifact filter.) -/
theorem echo_suppression_window (X : String) (T now : Int) (st : AppState)
    (hX : X ≠ "") (hT : 0 < T)
    (hart : isScreenshotArtifact X = false)
    (hr : st.lastProcessedResult = some X)
    (hts : st.lastProcessedTimestamp = some T) :
    (now - T < 60000 → (handleTextProcessingMode X now st).1 = AppMode.normal) ∧
    (60000 ≤ now - T →
      (handleTextProcessingMode X now st).1 = AppMode.textProcessing ∧
      (handleTextProcessingMode X now st).2.clipboardText = some X) := by
  have hecho : isOwnEcho st X now = (decide (now - T < 60000)) := by
    simp [isOwnEcho, hr, hts, hX, hT.ne']
  constructor
  · intro hfresh
    rw [handleTextProcessingMode_eq, hart]
    simp [hecho, hfresh]
  · intro hstale
    rw [handleTextProcessingMode_eq, hart]
    have : ¬(now - T < 60000) := by omega
    simp [hecho, this]

/-- Witness for `echo_suppression_window` at `X = "Hallo Welt"`,
`T = 1000`, detections at `now = 1500` (inside) and `now = 70000`
(outside the window). -/
theorem echo_suppression_window_witness :
    (handleTextProcessingMode "Hallo Welt" 1500 echoWitnessState).1 = AppMode.normal ∧
    (handleTextProcessingMode "Hallo Welt" 70000 echoWitnessState).1 =
      AppMode.textProcessing :=
  ⟨(echo_suppression_window "Hallo Welt" 1000 1500 echoWitnessState (by decide)
      (by decide) (by decide) rfl rfl).1 (by decide),
   ((echo_suppression_window "Hallo Welt" 1000 70000 echoWitnessState (by decide)
      (by decide) (by decide) rfl rfl).2 (by decide)).1⟩

/-- **C3** (confirmed).  Classification of the mode detector around a
successful triggered copy (both clipboard reads modelled by their raw
contents; the code compares the trimmed values): if the trimmed after-value
is non-empty, differs from the trimmed before-value, is not the screenshot
artifact and is not an actively suppressed own echo, the detected mode is
CommandOnSelection with the after-value as selection snapshot; in every
other case (empty, unchanged, artifact, or echo) the detected mode is
Dictation with an empty selection snapshot. -/
theorem mode_detector_classification (beforeRaw afterRaw : String) (now : Int)
    (st : AppState) (hdet : st.isDetecting = false) :
    (jsTrim afterRaw ≠ "" → jsTrim afterRaw ≠ jsTrim beforeRaw →
      isScreenshotArtifact (jsTrim afterRaw) = false →
      isOwnEcho st (jsTrim afterRaw) now = false →
      (autoDetectBody true beforeRaw afterRaw now st).1 = AppMode.textProcessing ∧
      (autoDetectBody true beforeRaw afterRaw now st).2.clipboardText =
        some (jsTrim afterRaw)) ∧
    ((jsTrim afterRaw = "" ∨ jsTrim afterRaw = jsTrim beforeRaw ∨
      isScreenshotArtifact (jsTrim afterRaw) = true ∨
      isOwnEcho st (jsTrim afterRaw) now = true) →
      (autoDetectBody true beforeRaw afterRaw now st).1 = AppMode.normal ∧
      (autoDetectBody true beforeRaw afterRaw now st).2.clipboardText = none) := by
  have hrec : isOwnEcho { st with isDetecting := true } (jsTrim afterRaw) now =
      isOwnEcho st (jsTrim afterRaw) now := by
    simp [isOwnEcho]
  constructor
  · intro h1 h2 hart hecho
    simp [autoDetectBody, hdet, h1, h2, handleTextProcessingMode_eq, hart, hrec, hecho]
  · intro h
    by_cases h1 : jsTrim afterRaw = ""
    · simp [autoDetectBody, hdet, h1, handleNormalMode]
    · by_cases h2 : jsTrim afterRaw = jsTrim beforeRaw
      · simp [autoDetectBody, hdet, h1, h2, handleNormalMode]
      · rcases h with h | h | h | h
        · exact absurd h h1
        · exact absurd h h2
        · simp [autoDetectBody, hdet, h1, h2, handleTextProcessingMode_eq, h,
                handleNormalMode]
        · by_cases hart : isScreenshotArtifact (jsTrim afterRaw)
          · simp [autoDetectBody, hdet, h1, h2, handleTextProcessingMode_eq, hart,
                  handleNormalMode]
          · simp [autoDetectBody, hdet, h1, h2, handleTextProcessingMode_eq, hart,
                  hrec, h]

/-- Witness for `mode_detector_classification`: a fresh selection
`"neu"` over before-value `"alt"` is CommandOnSelection; an unchanged
clipboard is Dictation. -/
theorem mode_detector_classification_witness :
    (autoDetectBody true "alt" " neu " 0 initialAppState).1 = AppMode.textProcessing ∧
    (autoDetectBody true "alt" " neu " 0 initialAppState).2.clipboardText = some "neu" ∧
    (autoDetectBody true "alt" "alt" 0 initialAppState).1 = AppMode.normal :=
  ⟨((mode_detector_classification "alt" " neu " 0 initialAppState rfl).1 (by decide)
      (by decide) (by decide) (by decide)).1,
   ((mode_detector_classification "alt" " neu " 0 initialAppState rfl).1 (by decide)
      (by decide) (by decide) (by decide)).2,
   ((mode_detector_classification "alt" "alt" 0 initialAppState rfl).2
      (Or.inr (Or.inl (by decide)))).1⟩

/-- **C9** (confirmed).  The self-echo guard is one-shot: when a detection
delivering text `X` is suppressed (stored own output `X` at non-zero time
`T`, still within the 60 s window, not the artifact pattern), the stored
`lastProcessedResult`/`lastProcessedTimestamp` are cleared in the same
step, and a second detection of the same `X` immediately afterwards —
still inside the original window — is classified as CommandOnSelection
with `selectionText = X` rather than suppressed again. -/
theorem echo_guard_one_shot (X : String) (T now now' : Int) (st : AppState)
    (hart : isScreenshotArtifact X = false) (hX : X ≠ "") (hT : T ≠ 0)
    (hr : st.lastProcessedResult = some X)
    (hts : st.lastProcessedTimestamp = some T)
    (hfresh : now - T < 60000) (_hfresh' : now' - T < 60000) :
    (handleTextProcessingMode X now st).1 = AppMode.normal ∧
    (handleTextProcessingMode X now st).2.lastProcessedResult = none ∧
    (handleTextProcessingMode X now st).2.lastProcessedTimestamp = none ∧
    (handleTextProcessingMode X now' ((handleTextProcessingMode X now st).2)).1 =
      AppMode.textProcessing ∧
    (handleTextProcessingMode X now' ((handleTextProcessingMode X now st).2)).2.clipboardText =
      some X := by
  have hecho : isOwnEcho st X now = true := by
    simp [isOwnEcho, hr, hts, hX, hT, hfresh]
  have hstep : handleTextProcessingMode X now st =
      (AppMode.normal,
       { st with mode := .normal, clipboardText := none, error := none,
                 lastProcessedResult := none, lastProcessedTimestamp := none }) := by
    rw [handleTextProcessingMode_eq, hart]
    simp [hecho]
  refine ⟨by rw [hstep], by rw [hstep], by rw [hstep], ?_, ?_⟩ <;>
  · rw [hstep, handleTextProcessingMode_eq, hart]
    simp [isOwnEcho]

/-- Witness for `echo_guard_one_shot`: own output `"Hallo Welt"` recorded
at `T = 1000`, both detections inside the window (at 1500 and 1600). -/
theorem echo_guard_one_shot_witness :
    (handleTextProcessingMode "Hallo Welt" 1500 echoWitnessState).1 = AppMode.normal ∧
    (handleTextProcessingMode "Hallo Welt" 1600
        ((handleTextProcessingMode "Hallo Welt" 1500 echoWitnessState).2)).1 =
      AppMode.textProcessing :=
  ⟨(echo_guard_one_shot "Hallo Welt" 1000 1500 1600 echoWitnessState (by decide)
      (by decide) (by decide) rfl rfl (by decide) (by decide)).1,
   (echo_guard_one_shot "Hallo Welt" 1000 1500 1600 echoWitnessState (by decide)
      (by decide) (by decide) rfl rfl (by decide) (by decide)).2.2.2.1⟩

/-- **C4** (confirmed).  With base options of temperature `t ≤ 1.0`, for
every endpoint stub failing attempts 1 and 2 (transport error or a
response the success validation rejects, i.e. blank text): if attempt 3
succeeds, `transcribeWithRetry` (with its `maxRetries = 2` as called)
returns the attempt-3 response and the attempt configurations are exactly
attempt 1 = base verbatim, attempt 2 = `min(1.0, t + 0.3)` (≥ t), attempt
3 = temperature `1.0` (≥ t) with the degraded-audio prompt; and if all
three attempts fail, the last attempt's error is thrown to the caller. -/
theorem retry_escalation (base : WhisperOptions)
    (stub : Nat → Except String WhisperResponse)
    (ht : base.temperature ≤ 1)
    (h0 : attemptFails (stub 0)) (h1 : attemptFails (stub 1)) :
    (∀ r, stub 2 = .ok r → responseOk r = true →
      transcribeWithRetry stub base 2 =
        (.ok r,
         [base,
          { base with temperature := min 1 (base.temperature + 3/10) },
          { base with temperature := 1, prompt := degradedAudioPrompt }])) ∧
    attemptConfig base 0 = base ∧
    (attemptConfig base 1).temperature = min 1 (base.temperature + 3/10) ∧
    base.temperature ≤ (attemptConfig base 1).temperature ∧
    (attemptConfig base 2).temperature = 1 ∧
    base.temperature ≤ (attemptConfig base 2).temperature ∧
    (attemptConfig base 2).prompt = degradedAudioPrompt ∧
    (attemptFails (stub 2) →
      (transcribeWithRetry stub base 2).1 = .error (attemptError (stub 2))) := by
  have cfg0 : attemptConfig base 0 = base := by
    simp [attemptConfig, retryConfigs]
  have cfg1 : attemptConfig base 1 =
      { base with temperature := min 1 (base.temperature + 3/10) } := by
    simp [attemptConfig, retryConfigs]
  have cfg2 : attemptConfig base 2 =
      { base with temperature := 1, prompt := degradedAudioPrompt } := by
    simp [attemptConfig, retryConfigs]
  have hloop : transcribeWithRetry stub base 2 =
      ((match stub 2 with
        | .ok r => if responseOk r then Except.ok r else Except.error emptyResponseError
        | .error e => Except.error e),
       [attemptConfig base 0, attemptConfig base 1, attemptConfig base 2]) := by
    unfold transcribeWithRetry
    rcases hs0 : stub 0 with e0 | r0
    · rcases hs1 : stub 1 with e1 | r1
      · simp [retryLoop, hs0, hs1]
      · have hr1 : responseOk r1 = false := by simpa [attemptFails, hs1] using h1
        simp [retryLoop, hs0, hs1, hr1]
    · have hr0 : responseOk r0 = false := by simpa [attemptFails, hs0] using h0
      rcases hs1 : stub 1 with e1 | r1
      · simp [retryLoop, hs0, hs1, hr0]
      · have hr1 : responseOk r1 = false := by simpa [attemptFails, hs1] using h1
        simp [retryLoop, hs0, hs1, hr0, hr1]
  refine ⟨?_, cfg0, ?_, ?_, ?_, ?_, ?_, ?_⟩
  · intro r h2 hr2
    rw [hloop, h2, cfg0, cfg1, cfg2]
    simp [hr2]
  · rw [cfg1]
  · rw [cfg1]
    exact le_min ht (by linarith)
  · rw [cfg2]
  · rw [cfg2]
    exact ht
  · rw [cfg2]
  · intro h2
    rcases hs2 : stub 2 with e2 | r2
    · rw [hloop]
      simp [hs2, attemptError]
    · have hr2 : responseOk r2 = false := by simpa [attemptFails, hs2] using h2
      rw [hloop]
      simp [hs2, hr2, attemptError]

/-- Witness for `retry_escalation`: the command-session base options
(temperature `0.2`) with `retryStub` (error, blank, success on attempt 3)
and `retryStubAllFail` (error, error, empty-string response). -/
theorem retry_escalation_witness :
    transcribeWithRetry retryStub baseOptionsC4 2 =
      (.ok (.jsonResp "mach formeller"),
       [baseOptionsC4,
        { baseOptionsC4 with temperature := min 1 (baseOptionsC4.temperature + 3/10) },
        { baseOptionsC4 with temperature := 1, prompt := degradedAudioPrompt }]) ∧
    (transcribeWithRetry retryStubAllFail baseOptionsC4 2).1 =
      .error (attemptError (retryStubAllFail 2)) :=
  ⟨(retry_escalation baseOptionsC4 retryStub (by norm_num [baseOptionsC4])
      (by decide) (by decide)).1
      (.jsonResp "mach formeller") rfl (by decide),
   (retry_escalation baseOptionsC4 retryStubAllFail (by norm_num [baseOptionsC4])
      (by decide) (by decide)).2.2.2.2.2.2.2 (by decide)⟩

/-- **C6** (confirmed).  For every well-formed audio payload (non-empty
blob within the 25 MB limit): a recording shorter than the 300 ms minimum
returns the "too short" placeholder (confidence 0), and a recording of
admissible duration whose 100 ms RMS frames are more than 80 % silent
returns the "silence" placeholder (confidence 0) — in both cases as a
normal return (`Except.ok`, no exception) with the endpoint-contacted flag
`false`. -/
theorem preflight_short_circuit (rec : AudioRecording)
    (endpoint : Unit → Except String TranscriptionResult)
    (hpos : 0 < rec.blobSize) (hsize : rec.blobSize ≤ 25 * 1024 * 1024) :
    (rec.duration < 300 →
      transcribeAudio rec endpoint = .ok (tooShortResult rec.duration, false)) ∧
    (300 ≤ rec.duration → 8/10 < detectSilence rec →
      transcribeAudio rec endpoint = .ok (silenceResult rec.duration, false)) := by
  have h1 : ¬(rec.blobSize = 0) := by omega
  have h2 : ¬(rec.blobSize > 25 * 1024 * 1024) := by omega
  constructor
  · intro hd
    simp [transcribeAudio, h1, h2, hd]
  · intro hd hs
    have hd' : ¬(rec.duration < 300) := by omega
    simp [transcribeAudio, h1, h2, hd', hs]

/-- Witness for `preflight_short_circuit`: the 200 ms recording and the
all-silent 400 ms recording, both with an endpoint stub that would error
if contacted. -/
theorem preflight_short_circuit_witness :
    transcribeAudio shortRecording endpointMustNotBeCalled =
      .ok (tooShortResult 200, false) ∧
    transcribeAudio silentRecording endpointMustNotBeCalled =
      .ok (silenceResult 400, false) := by
  constructor
  · exact (preflight_short_circuit shortRecording endpointMustNotBeCalled
      (by decide) (by decide)).1 (by decide)
  · have hsil : detectSilence silentRecording = 1 := by
      simp [detectSilence, silentRecording, chunkList, chunkListAux,
            frameIsSilent, frameMeanSquare]
    exact (preflight_short_circuit silentRecording endpointMustNotBeCalled
      (by decide) (by decide)).2 (by decide) (by rw [hsil]; norm_num)

/-- **C7** (confirmed).  When the Mode Detector selected CommandOnSelection
but the stored selection snapshot is empty, whitespace-only, or missing at
transcription-complete time, the orchestrator downgrades to plain
dictation output: the rewrite pipeline is never invoked, the raw
transcription becomes the result, and it is what gets passed to the
clipboard write. -/
theorem command_mode_downgrade (capClip : Option String) (t : String)
    (chatStub : String → String → Except String String) (copyOk : Bool)
    (now : Int) (st : AppState)
    (hclip : hasValidClipboardText capClip = false) :
    (stopPostProcess .textProcessing capClip t chatStub copyOk now st).chatCalled =
      false ∧
    (stopPostProcess .textProcessing capClip t chatStub copyOk now st).copiedTexts =
      [t] ∧
    (stopPostProcess .textProcessing capClip t chatStub copyOk now
        st).state.lastTranscription = some t := by
  refine ⟨?_, ?_, ?_⟩ <;>
    simp [stopPostProcess, hclip, stopRecordingFinally, setTranscription,
          setTranscribing]

/-- Witness for `command_mode_downgrade`: a whitespace-only snapshot with
raw transcription `"hallo welt"` and a rewrite stub that would error if
invoked. -/
theorem command_mode_downgrade_witness :
    (stopPostProcess .textProcessing (some "   ") "hallo welt"
        (fun _ _ => .error "Rewrite kontaktiert") true 5000
        initialAppState).chatCalled = false ∧
    (stopPostProcess .textProcessing (some "   ") "hallo welt"
        (fun _ _ => .error "Rewrite kontaktiert") true 5000
        initialAppState).copiedTexts = ["hallo welt"] :=
  ⟨(command_mode_downgrade (some "   ") "hallo welt"
      (fun _ _ => .error "Rewrite kontaktiert") true 5000 initialAppState
      (by decide)).1,
   (command_mode_downgrade (some "   ") "hallo welt"
      (fun _ _ => .error "Rewrite kontaktiert") true 5000 initialAppState
      (by decide)).2.1⟩

/-- **C8** (amended).  Every session execution path — permission denial,
capture-device error, capture-stop error, transcription error, rewrite
error, clipboard-write failure, or success, in either detected mode —
terminates with all three phase flags false, and a subsequent `toggle()`
passes every guard and starts a new recording.  The permission-denial path
additionally leaves the microphone error set.  The `finally`-equivalent
cleanup that resets `mode` to normal runs on every path that reaches
`stopRecording`; start-side failures (permission denial, capture-device
error) clear the flags and set an error but leave the detected mode
unchanged (see the counterexample for the original claim). -/
theorem session_paths_return_to_ready
    (detSel perm audioOk audioActive stopAudioOk transOk chatOk copyOk : Bool) :
    (sessionRun detSel perm audioOk audioActive stopAudioOk transOk chatOk
        copyOk).map (fun c => c.st.isRecording) = some false ∧
    (sessionRun detSel perm audioOk audioActive stopAudioOk transOk chatOk
        copyOk).map (fun c => c.st.isTranscribing) = some false ∧
    (sessionRun detSel perm audioOk audioActive stopAudioOk transOk chatOk
        copyOk).map (fun c => c.st.isProcessingText) = some false ∧
    (sessionRun detSel perm audioOk audioActive stopAudioOk transOk chatOk
        copyOk).map (fun c => (toggleSeg c).st.isRecording) = some true ∧
    (perm = false →
      (sessionRun detSel perm audioOk audioActive stopAudioOk transOk chatOk
          copyOk).map (fun c => c.st.error) =
        some (some "Mikrofon-Berechtigung erforderlich")) ∧
    ((perm && (audioOk || audioActive)) = true →
      (sessionRun detSel perm audioOk audioActive stopAudioOk transOk chatOk
          copyOk).map (fun c => c.st.mode) = some AppMode.normal) := by
  revert detSel perm audioOk audioActive stopAudioOk transOk chatOk copyOk
  decide

/-- Witness for `session_paths_return_to_ready`: the permission-denial path
with a detected selection (flags cleared, error set), and the fully
successful command-on-selection path (mode reset to normal, processing
flag cleared). -/
theorem session_paths_return_to_ready_witness :
    (sessionRun true false false false false false false false).map
        (fun c => c.st.error) = some (some "Mikrofon-Berechtigung erforderlich") ∧
    (sessionRun true true true false true true true true).map
        (fun c => c.st.mode) = some AppMode.normal ∧
    (sessionRun true true true false true true true true).map
        (fun c => c.st.isProcessingText) = some false :=
  ⟨(session_paths_return_to_ready true false false false false false false
      false).2.2.2.2.1 rfl,
   (session_paths_return_to_ready true true true false true true true
      true).2.2.2.2.2 rfl,
   (session_paths_return_to_ready true true true false true true true
      true).2.2.1⟩
